import Mathlib

/-!
Shallow embedding of the crypto_dca bot core (src/dca_executor.py,
src/cli.py, src/utils.py, src/main.py) and proofs about it.

Python `Decimal` values are embedded as `ℚ` (the spec mandates exact
arbitrary-precision decimal arithmetic for the whole price/quantity
pipeline). Exchange interactions are embedded as a pure event log: each
client call the executor makes appends one `Event`, and the responses the
exchange would give are supplied up front as an environment.
-/

namespace CryptoDCA

/-- Modelled from the spec: `round_down` is imported from
`src.binance_client` by both `dca_executor.py` and `main.py`, but its
definition is absent from the repository sources. Spec §4.1: floor `value`
to the nearest lower (or equal) multiple of `step`, exact decimal
arithmetic; if `step == 0`, return `value` unchanged. -/
def round_down (value step : ℚ) : ℚ :=
  if step = 0 then value else (⌊value / step⌋ : ℤ) * step

/-- Modelled from the spec: `round_to_tick` is imported from
`src.binance_client` but absent from the repository sources. Spec §4.1:
quantize `price` to a multiple of `tick`, rounding down, matching
`round_down` semantics, with the same `tick == 0` passthrough rule. -/
def round_to_tick (price tick : ℚ) : ℚ :=
  round_down price tick

/-- Exchange filters for a symbol, as returned by
`BinanceClient.get_exchange_info` (src/binance_client.py). -/
structure Filters where
  tick_size : ℚ
  step_size : ℚ
  min_notional : ℚ
  min_qty : ℚ
  max_qty : ℚ
deriving DecidableEq

/-- `OrderConfig` dataclass (src/dca_executor.py). -/
structure OrderConfig where
  symbol : String
  spend_quote : ℚ
  price_multiplier : ℚ
  time_in_force : String
  poll_interval : ℕ
  intervals_before_reprice : ℕ
  max_reprices : ℕ
deriving DecidableEq

/-- `OrderResult` dataclass (src/dca_executor.py). -/
structure OrderResult where
  success : Bool
  filled : Bool
  order_id : Option Int := none
  quantity : Option ℚ := none
  price : Option ℚ := none
  message : String := ""
deriving DecidableEq

/-- One exchange-client call made by the executor. Constructors mirror the
`BinanceClient` methods used by `dca_executor.py`. -/
inductive Event where
  | get_exchange_info (symbol : String)
  | get_best_ask (symbol : String)
  | place_limit_order (symbol side : String) (quantity price : ℚ)
      (time_in_force : String)
  | get_order (symbol : String) (order_id : Int)
  | cancel_order (symbol : String) (order_id : Int)
deriving DecidableEq

/-- The (quantity, price) of a `place_limit_order` event, if any. -/
def placeQP : Event → Option (ℚ × ℚ)
  | Event.place_limit_order _ _ q p _ => some (q, p)
  | _ => none

/-- All (quantity, price) pairs delivered to the exchange in an event log. -/
def placedOrders (evs : List Event) : List (ℚ × ℚ) :=
  evs.filterMap placeQP

/-- True for the three client operations the spec says simulation mode must
never invoke: `place_limit_order`, `cancel_order`, `get_order`. -/
def isOrderCall : Event → Bool
  | Event.place_limit_order _ _ _ _ _ => true
  | Event.cancel_order _ _ => true
  | Event.get_order _ _ => true
  | _ => false

/-- `DCAExecutor._calculate_limit_price` (src/dca_executor.py:86-95). -/
def calculate_limit_price (best_ask multiplier : ℚ) (filters : Filters) : ℚ :=
  round_to_tick (best_ask * multiplier) filters.tick_size

/-- `DCAExecutor._calculate_quantity` (src/dca_executor.py:97-104). -/
def calculate_quantity (spend price : ℚ) (filters : Filters) : ℚ :=
  round_down (spend / price) filters.step_size

/-- `DCAExecutor._validate_order` (src/dca_executor.py:106-123). Returns the
error message of the first failed check, or `none`. -/
def validate_order (quantity price : ℚ) (filters : Filters) : Option String :=
  if quantity < filters.min_qty then
    some ("Quantity " ++ toString quantity ++ " below min "
      ++ toString filters.min_qty)
  else if filters.max_qty < quantity then
    some ("Quantity " ++ toString quantity ++ " exceeds max "
      ++ toString filters.max_qty)
  else if quantity * price < filters.min_notional then
    some ("Notional " ++ toString (quantity * price) ++ " below min "
      ++ toString filters.min_notional ++ ". Increase --spend-eur.")
  else
    none

/-- One poll's observation: the order status returned by
`client.get_order` and the ask returned by `client.get_best_ask`
(src/dca_executor.py:184-186). -/
structure Obs where
  status : String
  ask : ℚ
deriving DecidableEq

/-- The mutable locals of `DCAExecutor._monitor_order`
(src/dca_executor.py:167-170), threaded explicitly. -/
structure MonState where
  current_order_id : Int
  current_price : ℚ
  reprice_count : ℕ
  intervals_above : ℕ
deriving DecidableEq

/-- Response to `client.place_limit_order`: the `orderId` and `status`
fields read by `_place_and_monitor` (src/dca_executor.py:142-143). -/
structure PlaceResp where
  orderId : Int
  status : String
deriving DecidableEq

/-- `DCAExecutor._reprice_order` (src/dca_executor.py:248-270): cancel the
old order, place a new one for the same quantity at the current ask times
the multiplier, rounded to tick. Returns the new (order id, price) and the
client calls made; `new_id` is the exchange's order id for the
replacement. -/
def reprice_order (cfg : OrderConfig) (old_order_id : Int)
    (quantity current_ask : ℚ) (filters : Filters) (new_id : Int) :
    (Int × ℚ) × List Event :=
  let new_price :=
    round_to_tick (current_ask * cfg.price_multiplier) filters.tick_size
  ((new_id, new_price),
   [Event.cancel_order cfg.symbol old_order_id,
    Event.place_limit_order cfg.symbol "BUY" quantity new_price
      cfg.time_in_force])

/-- One iteration of the `while True` loop of `DCAExecutor._monitor_order`
(src/dca_executor.py:180-246): either a terminal `OrderResult`
(`Sum.inl`) or the updated loop state (`Sum.inr`), together with the
client calls made this poll. `new_ids` supplies the exchange's order id
for each replacement order, indexed by the reprice count. -/
def monitor_step (cfg : OrderConfig) (filters : Filters) (quantity : ℚ)
    (new_ids : ℕ → Int) (st : MonState) (ob : Obs) :
    Sum OrderResult MonState × List Event :=
  let evs0 := [Event.get_order cfg.symbol st.current_order_id,
               Event.get_best_ask cfg.symbol]
  if ob.status = "FILLED" then
    (Sum.inl ⟨true, true, some st.current_order_id, some quantity,
      some st.current_price, "Order filled"⟩, evs0)
  else if ob.status = "NEW" ∨ ob.status = "PARTIALLY_FILLED" then
    if st.current_price < ob.ask then
      if cfg.intervals_before_reprice ≤ st.intervals_above + 1 then
        if cfg.max_reprices ≤ st.reprice_count then
          (Sum.inl ⟨true, false, some st.current_order_id, none, none,
            "Max reprices reached"⟩,
           evs0 ++ [Event.cancel_order cfg.symbol st.current_order_id])
        else
          let rp := reprice_order cfg st.current_order_id quantity ob.ask
            filters (new_ids st.reprice_count)
          (Sum.inr ⟨rp.1.1, rp.1.2, st.reprice_count + 1, 0⟩, evs0 ++ rp.2)
      else
        (Sum.inr ⟨st.current_order_id, st.current_price, st.reprice_count,
          st.intervals_above + 1⟩, evs0)
    else
      (Sum.inr ⟨st.current_order_id, st.current_price, st.reprice_count,
        0⟩, evs0)
  else
    (Sum.inl ⟨false, false, some st.current_order_id, none, none,
      "Unexpected status: " ++ ob.status⟩, evs0)

/-- The `while True` loop of `DCAExecutor._monitor_order`, driven by the
finite list of observations the environment supplies; `none` means the
observations ran out with the loop still going (the Python loop is
unbounded in time). -/
def monitor_order_go (cfg : OrderConfig) (filters : Filters) (quantity : ℚ)
    (new_ids : ℕ → Int) (st : MonState) :
    List Obs → Option OrderResult × List Event
  | [] => (none, [])
  | ob :: rest =>
    match monitor_step cfg filters quantity new_ids st ob with
    | (Sum.inl r, evs) => (some r, evs)
    | (Sum.inr st2, evs) =>
      let rec2 := monitor_order_go cfg filters quantity new_ids st2 rest
      (rec2.1, evs ++ rec2.2)

/-- `DCAExecutor._monitor_order` (src/dca_executor.py:158-246), with its
initial state `reprice_count = 0`, `intervals_above = 0`. -/
def monitor_order (cfg : OrderConfig) (order_id : Int)
    (quantity limit_price : ℚ) (filters : Filters) (new_ids : ℕ → Int)
    (obs : List Obs) : Option OrderResult × List Event :=
  monitor_order_go cfg filters quantity new_ids
    ⟨order_id, limit_price, 0, 0⟩ obs

/-- The exchange environment for one run: the responses the client returns
to the executor's calls, supplied up front. -/
structure ExchangeEnv where
  filters : Filters
  best_ask : ℚ
  place_resp : PlaceResp
  obs : List Obs
  new_ids : ℕ → Int

/-- `DCAExecutor._place_and_monitor` (src/dca_executor.py:125-156). -/
def place_and_monitor (cfg : OrderConfig) (quantity limit_price : ℚ)
    (filters : Filters) (place_resp : PlaceResp) (obs : List Obs)
    (new_ids : ℕ → Int) : Option OrderResult × List Event :=
  let ev := Event.place_limit_order cfg.symbol "BUY" quantity limit_price
    cfg.time_in_force
  if place_resp.status = "FILLED" then
    (some ⟨true, true, some place_resp.orderId, some quantity,
      some limit_price, "Filled immediately"⟩, [ev])
  else
    let rec2 := monitor_order cfg place_resp.orderId quantity limit_price
      filters new_ids obs
    (rec2.1, ev :: rec2.2)

/-- `DCAExecutor.execute` (src/dca_executor.py:47-84). -/
def execute (cfg : OrderConfig) (dry_run : Bool) (env : ExchangeEnv) :
    Option OrderResult × List Event :=
  let evs0 := [Event.get_exchange_info cfg.symbol,
               Event.get_best_ask cfg.symbol]
  let filters := env.filters
  let limit_price :=
    calculate_limit_price env.best_ask cfg.price_multiplier filters
  let quantity := calculate_quantity cfg.spend_quote limit_price filters
  match validate_order quantity limit_price filters with
  | some e => (some ⟨false, false, none, none, none, e⟩, evs0)
  | none =>
    if dry_run then
      (some ⟨true, false, none, some quantity, some limit_price,
        "Dry run - no order placed"⟩, evs0)
    else
      let rec2 := place_and_monitor cfg quantity limit_price filters
        env.place_resp env.obs env.new_ids
      (rec2.1, evs0 ++ rec2.2)

theorem round_down_le (v : ℚ) {s : ℚ} (hs : 0 ≤ s) : round_down v s ≤ v := by
  unfold round_down
  split
  · exact le_refl v
  · rename_i h
    have hs' : 0 < s := lt_of_le_of_ne hs (Ne.symm h)
    calc ((⌊v / s⌋ : ℤ) : ℚ) * s ≤ (v / s) * s := by
          exact mul_le_mul_of_nonneg_right (Int.floor_le _) hs
      _ = v := div_mul_cancel₀ v (ne_of_gt hs')

theorem round_down_lt_add (v : ℚ) {s : ℚ} (hs : 0 < s) :
    v < round_down v s + s := by
  unfold round_down
  rw [if_neg (ne_of_gt hs)]
  have h1 : v / s < (⌊v / s⌋ : ℚ) + 1 := Int.lt_floor_add_one _
  have h2 : v / s * s < ((⌊v / s⌋ : ℚ) + 1) * s :=
    mul_lt_mul_of_pos_right h1 hs
  rw [div_mul_cancel₀ v (ne_of_gt hs)] at h2
  linarith [h2]

theorem round_down_is_multiple (v : ℚ) {s : ℚ} (hs : 0 < s) :
    ∃ k : ℤ, round_down v s = k * s := by
  refine ⟨⌊v / s⌋, ?_⟩
  unfold round_down
  rw [if_neg (ne_of_gt hs)]

theorem round_down_idem (v : ℚ) (s : ℚ) :
    round_down (round_down v s) s = round_down v s := by
  unfold round_down
  split
  · rfl
  · rename_i h
    rw [mul_div_assoc, div_self h, mul_one, Int.floor_intCast]

theorem validate_order_none {q p : ℚ} {f : Filters}
    (h : validate_order q p f = none) :
    f.min_qty ≤ q ∧ q ≤ f.max_qty ∧ f.min_notional ≤ q * p := by
  unfold validate_order at h
  split at h
  · exact absurd h (by simp)
  · split at h
    · exact absurd h (by simp)
    · split at h
      · exact absurd h (by simp)
      · rename_i h1 h2 h3
        exact ⟨not_lt.mp h1, not_lt.mp h2, not_lt.mp h3⟩

/-- C6: for every value and every step > 0, `round_down value step` is the
greatest multiple of `step` that is ≤ `value` (so it is ≤ value, value <
result + step, and the result is a multiple of step), it is idempotent,
for `step = 0` it returns the value unchanged, and `round_to_tick` has the
same rounding-down semantics. The arithmetic is exact (ℚ), as the spec
requires. -/
theorem round_down_spec (v s : ℚ) :
    (0 < s →
      round_down v s ≤ v ∧ v < round_down v s + s ∧
      (∃ k : ℤ, round_down v s = k * s) ∧
      round_down (round_down v s) s = round_down v s) ∧
    round_down v 0 = v ∧
    round_to_tick v s = round_down v s := by
  refine ⟨fun hs => ⟨round_down_le v hs.le, round_down_lt_add v hs,
    round_down_is_multiple v hs, round_down_idem v s⟩, ?_, rfl⟩
  unfold round_down
  simp

/-- Witness for C6 at `value = 5/4`, `step = 1/2`. -/
theorem round_down_spec_witness :
    (round_down (5/4 : ℚ) (1/2) ≤ 5/4 ∧
     (5/4 : ℚ) < round_down (5/4) (1/2) + 1/2 ∧
     (∃ k : ℤ, round_down (5/4 : ℚ) (1/2) = k * (1/2)) ∧
     round_down (round_down (5/4 : ℚ) (1/2)) (1/2)
       = round_down (5/4 : ℚ) (1/2)) ∧
    round_down (5/4 : ℚ) 0 = 5/4 ∧
    round_to_tick (5/4 : ℚ) (1/2) = round_down (5/4 : ℚ) (1/2) :=
  ⟨(round_down_spec (5/4) (1/2)).1 (by norm_num),
   (round_down_spec (5/4) (1/2)).2.1,
   (round_down_spec (5/4) (1/2)).2.2⟩

/-- C5: for every best ask, multiplier in (0,1), spend amount and filters,
the limit price is `round_to_tick (best_ask * multiplier) tick_size`, the
quantity is `round_down (spend / limit_price) step_size`, and the
resulting notional `quantity * limit_price` never exceeds the requested
spend amount (stated for a nonnegative step size and a positive computed
limit price, the regime in which the Python code runs — a zero price
would raise a division error there). -/
theorem order_sizer_spend_bound (best_ask multiplier spend : ℚ)
    (f : Filters) (_hm0 : 0 < multiplier) (_hm1 : multiplier < 1)
    (hstep : 0 ≤ f.step_size)
    (hp : 0 < calculate_limit_price best_ask multiplier f) :
    calculate_limit_price best_ask multiplier f
      = round_to_tick (best_ask * multiplier) f.tick_size ∧
    calculate_quantity spend (calculate_limit_price best_ask multiplier f) f
      = round_down (spend / calculate_limit_price best_ask multiplier f)
          f.step_size ∧
    calculate_quantity spend (calculate_limit_price best_ask multiplier f) f
      * calculate_limit_price best_ask multiplier f ≤ spend := by
  refine ⟨rfl, rfl, ?_⟩
  have h1 : calculate_quantity spend
      (calculate_limit_price best_ask multiplier f) f
      ≤ spend / calculate_limit_price best_ask multiplier f :=
    round_down_le _ hstep
  calc calculate_quantity spend
        (calculate_limit_price best_ask multiplier f) f
        * calculate_limit_price best_ask multiplier f
      ≤ (spend / calculate_limit_price best_ask multiplier f)
        * calculate_limit_price best_ask multiplier f :=
        mul_le_mul_of_nonneg_right h1 hp.le
    _ = spend := div_mul_cancel₀ spend (ne_of_gt hp)

/-- Witness for C5 at best ask 100, multiplier 1/2, spend 100, tick 1,
step 1. -/
theorem order_sizer_spend_bound_witness :
    calculate_limit_price 100 (1/2) ⟨1, 1, 10, 1, 10⟩
      = round_to_tick ((100 : ℚ) * (1/2)) (⟨1, 1, 10, 1, 10⟩ : Filters).tick_size ∧
    calculate_quantity 100 (calculate_limit_price 100 (1/2) ⟨1, 1, 10, 1, 10⟩)
        ⟨1, 1, 10, 1, 10⟩
      = round_down ((100 : ℚ) / calculate_limit_price 100 (1/2) ⟨1, 1, 10, 1, 10⟩)
          (⟨1, 1, 10, 1, 10⟩ : Filters).step_size ∧
    calculate_quantity 100 (calculate_limit_price 100 (1/2) ⟨1, 1, 10, 1, 10⟩)
        ⟨1, 1, 10, 1, 10⟩
      * calculate_limit_price 100 (1/2) ⟨1, 1, 10, 1, 10⟩ ≤ 100 :=
  order_sizer_spend_bound 100 (1/2) 100 ⟨1, 1, 10, 1, 10⟩
    (by norm_num) (by norm_num) (by norm_num)
    (by norm_num [calculate_limit_price, round_to_tick, round_down])

/-- C7: the filter validator checks quantity below `min_qty`, then quantity
above `max_qty`, then notional below `min_notional`, first failure
winning, each with a message naming the violated bound, and passes
otherwise; it is a pure function (no side effects, by construction of the
embedding), and when it fails, `execute` returns an unsuccessful
`OrderResult` carrying that reason and makes no exchange call beyond the
two reads (in particular it never places an order). -/
theorem validate_order_first_failure (cfg : OrderConfig) (dry_run : Bool)
    (env : ExchangeEnv) (q p : ℚ) (f : Filters) (e : String) :
    (q < f.min_qty →
      validate_order q p f = some ("Quantity " ++ toString q
        ++ " below min " ++ toString f.min_qty)) ∧
    (¬ q < f.min_qty → f.max_qty < q →
      validate_order q p f = some ("Quantity " ++ toString q
        ++ " exceeds max " ++ toString f.max_qty)) ∧
    (¬ q < f.min_qty → ¬ f.max_qty < q → q * p < f.min_notional →
      validate_order q p f = some ("Notional " ++ toString (q * p)
        ++ " below min " ++ toString f.min_notional
        ++ ". Increase --spend-eur.")) ∧
    (¬ q < f.min_qty → ¬ f.max_qty < q → ¬ q * p < f.min_notional →
      validate_order q p f = none) ∧
    (validate_order
        (calculate_quantity cfg.spend_quote
          (calculate_limit_price env.best_ask cfg.price_multiplier
            env.filters) env.filters)
        (calculate_limit_price env.best_ask cfg.price_multiplier env.filters)
        env.filters = some e →
      execute cfg dry_run env
        = (some ⟨false, false, none, none, none, e⟩,
           [Event.get_exchange_info cfg.symbol,
            Event.get_best_ask cfg.symbol])) := by
  refine ⟨?_, ?_, ?_, ?_, ?_⟩
  · intro h1
    simp [validate_order, h1]
  · intro h1 h2
    simp [validate_order, h1, h2]
  · intro h1 h2 h3
    simp [validate_order, h1, h2, h3]
  · intro h1 h2 h3
    simp [validate_order, h1, h2, h3]
  · intro h
    simp only [execute, h]

/-- Witness for C7: filters with min_qty 3, max_qty 5, min_notional 10;
each validator branch exercised, and a full `execute` run whose computed
quantity (2) fails the min-qty check, returning that reason with no order
placed. -/
theorem validate_order_first_failure_witness :
    validate_order 2 1 ⟨1, 1, 10, 3, 5⟩
      = some ("Quantity " ++ toString (2 : ℚ) ++ " below min "
        ++ toString (⟨1, 1, 10, 3, 5⟩ : Filters).min_qty) ∧
    validate_order 6 1 ⟨1, 1, 10, 3, 5⟩
      = some ("Quantity " ++ toString (6 : ℚ) ++ " exceeds max "
        ++ toString (⟨1, 1, 10, 3, 5⟩ : Filters).max_qty) ∧
    validate_order 4 1 ⟨1, 1, 10, 3, 5⟩
      = some ("Notional " ++ toString ((4 : ℚ) * 1) ++ " below min "
        ++ toString (⟨1, 1, 10, 3, 5⟩ : Filters).min_notional
        ++ ". Increase --spend-eur.") ∧
    validate_order 4 3 ⟨1, 1, 10, 3, 5⟩ = none ∧
    execute ⟨"BTCEUR", 100, 1/2, "GTC", 1, 1, 1⟩ false
        ⟨⟨1, 1, 10, 3, 5⟩, 100, ⟨1, "NEW"⟩, [], fun _ => 2⟩
      = (some ⟨false, false, none, none, none,
          "Quantity " ++ toString (2 : ℚ) ++ " below min "
            ++ toString (3 : ℚ)⟩,
         [Event.get_exchange_info "BTCEUR", Event.get_best_ask "BTCEUR"]) :=
  ⟨(validate_order_first_failure ⟨"BTCEUR", 100, 1/2, "GTC", 1, 1, 1⟩ false
      ⟨⟨1, 1, 10, 3, 5⟩, 100, ⟨1, "NEW"⟩, [], fun _ => 2⟩ 2 1
      ⟨1, 1, 10, 3, 5⟩ "").1 (by norm_num),
   (validate_order_first_failure ⟨"BTCEUR", 100, 1/2, "GTC", 1, 1, 1⟩ false
      ⟨⟨1, 1, 10, 3, 5⟩, 100, ⟨1, "NEW"⟩, [], fun _ => 2⟩ 6 1
      ⟨1, 1, 10, 3, 5⟩ "").2.1 (by norm_num) (by norm_num),
   (validate_order_first_failure ⟨"BTCEUR", 100, 1/2, "GTC", 1, 1, 1⟩ false
      ⟨⟨1, 1, 10, 3, 5⟩, 100, ⟨1, "NEW"⟩, [], fun _ => 2⟩ 4 1
      ⟨1, 1, 10, 3, 5⟩ "").2.2.1 (by norm_num) (by norm_num) (by norm_num),
   (validate_order_first_failure ⟨"BTCEUR", 100, 1/2, "GTC", 1, 1, 1⟩ false
      ⟨⟨1, 1, 10, 3, 5⟩, 100, ⟨1, "NEW"⟩, [], fun _ => 2⟩ 4 3
      ⟨1, 1, 10, 3, 5⟩ "").2.2.2.1 (by norm_num) (by norm_num) (by norm_num),
   (validate_order_first_failure ⟨"BTCEUR", 100, 1/2, "GTC", 1, 1, 1⟩ false
      ⟨⟨1, 1, 10, 3, 5⟩, 100, ⟨1, "NEW"⟩, [], fun _ => 2⟩ 4 3
      ⟨1, 1, 10, 3, 5⟩
      ("Quantity " ++ toString (2 : ℚ) ++ " below min "
        ++ toString (3 : ℚ))).2.2.2.2
     (by norm_num +decide [validate_order, calculate_limit_price,
       calculate_quantity, round_to_tick, round_down])⟩

/-- C2: in the monitor loop, when the consecutive-above counter reaches
`intervals_before_reprice` with the reprice count still below
`max_reprices`, that poll performs exactly one cancel and exactly one new
placement — the new order for the same quantity at
`round_to_tick (current ask * multiplier) tick_size` — the active order id
and price are replaced by the new ones, the reprice count is incremented,
the consecutive-above counter is reset to zero, and monitoring continues
on the remaining observations. -/
theorem monitor_reprice_step (cfg : OrderConfig) (filters : Filters)
    (quantity : ℚ) (new_ids : ℕ → Int) (st : MonState) (ob : Obs)
    (rest : List Obs)
    (hstatus : ob.status = "NEW" ∨ ob.status = "PARTIALLY_FILLED")
    (hask : st.current_price < ob.ask)
    (hthresh : cfg.intervals_before_reprice ≤ st.intervals_above + 1)
    (hcount : st.reprice_count < cfg.max_reprices) :
    monitor_order_go cfg filters quantity new_ids st (ob :: rest) =
      ((monitor_order_go cfg filters quantity new_ids
          ⟨new_ids st.reprice_count,
           round_to_tick (ob.ask * cfg.price_multiplier) filters.tick_size,
           st.reprice_count + 1, 0⟩ rest).1,
       Event.get_order cfg.symbol st.current_order_id ::
       Event.get_best_ask cfg.symbol ::
       Event.cancel_order cfg.symbol st.current_order_id ::
       Event.place_limit_order cfg.symbol "BUY" quantity
         (round_to_tick (ob.ask * cfg.price_multiplier) filters.tick_size)
         cfg.time_in_force ::
       (monitor_order_go cfg filters quantity new_ids
          ⟨new_ids st.reprice_count,
           round_to_tick (ob.ask * cfg.price_multiplier) filters.tick_size,
           st.reprice_count + 1, 0⟩ rest).2) := by
  have hf : ¬ ob.status = "FILLED" := by
    rcases hstatus with h | h <;> rw [h] <;> decide
  simp [monitor_order_go, monitor_step, reprice_order, hf, hstatus, hask,
    hthresh, not_le.mpr hcount]

/-- Witness for C2: one poll with status NEW and ask 52 above the limit 50,
threshold 1, reprice count 0 of max 3: the order is cancelled and replaced
at `round_to_tick (52 * (1/2)) 1`, the counter resets and monitoring
continues on the empty remainder. -/
theorem monitor_reprice_step_witness :
    monitor_order_go ⟨"BTCEUR", 100, 1/2, "GTC", 1, 1, 3⟩ ⟨1, 1, 10, 1, 10⟩
        100 (fun _ => 7) ⟨1, 50, 0, 0⟩ [⟨"NEW", 52⟩] =
      ((monitor_order_go ⟨"BTCEUR", 100, 1/2, "GTC", 1, 1, 3⟩
          ⟨1, 1, 10, 1, 10⟩ 100 (fun _ => 7)
          ⟨(fun _ : ℕ => (7 : Int)) 0,
           round_to_tick ((52 : ℚ) * (⟨"BTCEUR", 100, 1/2, "GTC", 1, 1, 3⟩ :
             OrderConfig).price_multiplier)
             (⟨1, 1, 10, 1, 10⟩ : Filters).tick_size, 0 + 1, 0⟩ []).1,
       Event.get_order "BTCEUR" 1 ::
       Event.get_best_ask "BTCEUR" ::
       Event.cancel_order "BTCEUR" 1 ::
       Event.place_limit_order "BTCEUR" "BUY" 100
         (round_to_tick ((52 : ℚ) * (⟨"BTCEUR", 100, 1/2, "GTC", 1, 1, 3⟩ :
           OrderConfig).price_multiplier)
           (⟨1, 1, 10, 1, 10⟩ : Filters).tick_size) "GTC" ::
       (monitor_order_go ⟨"BTCEUR", 100, 1/2, "GTC", 1, 1, 3⟩
          ⟨1, 1, 10, 1, 10⟩ 100 (fun _ => 7)
          ⟨(fun _ : ℕ => (7 : Int)) 0,
           round_to_tick ((52 : ℚ) * (⟨"BTCEUR", 100, 1/2, "GTC", 1, 1, 3⟩ :
             OrderConfig).price_multiplier)
             (⟨1, 1, 10, 1, 10⟩ : Filters).tick_size, 0 + 1, 0⟩ []).2) :=
  monitor_reprice_step ⟨"BTCEUR", 100, 1/2, "GTC", 1, 1, 3⟩
    ⟨1, 1, 10, 1, 10⟩ 100 (fun _ => 7) ⟨1, 50, 0, 0⟩ ⟨"NEW", 52⟩ []
    (Or.inl rfl) (by norm_num) (by norm_num) (by norm_num)

/-- C3: in the monitor loop, when the consecutive-above counter reaches the
threshold but the reprice count is already at `max_reprices`, the active
order is cancelled, no further order is placed, and monitoring returns an
`OrderResult` with success = true, filled = false and the message
"Max reprices reached". -/
theorem monitor_max_reprices_abandon (cfg : OrderConfig) (filters : Filters)
    (quantity : ℚ) (new_ids : ℕ → Int) (st : MonState) (ob : Obs)
    (rest : List Obs)
    (hstatus : ob.status = "NEW" ∨ ob.status = "PARTIALLY_FILLED")
    (hask : st.current_price < ob.ask)
    (hthresh : cfg.intervals_before_reprice ≤ st.intervals_above + 1)
    (hcount : cfg.max_reprices ≤ st.reprice_count) :
    monitor_order_go cfg filters quantity new_ids st (ob :: rest) =
      (some ⟨true, false, some st.current_order_id, none, none,
         "Max reprices reached"⟩,
       [Event.get_order cfg.symbol st.current_order_id,
        Event.get_best_ask cfg.symbol,
        Event.cancel_order cfg.symbol st.current_order_id]) := by
  have hf : ¬ ob.status = "FILLED" := by
    rcases hstatus with h | h <;> rw [h] <;> decide
  simp [monitor_order_go, monitor_step, hf, hstatus, hask, hthresh, hcount]

/-- Witness for C3: status NEW, ask 52 above limit 50, threshold 1, reprice
count already 3 of max 3: cancel, no placement, abandoned result. -/
theorem monitor_max_reprices_abandon_witness :
    monitor_order_go ⟨"BTCEUR", 100, 1/2, "GTC", 1, 1, 3⟩ ⟨1, 1, 10, 1, 10⟩
        100 (fun _ => 7) ⟨9, 50, 3, 0⟩ [⟨"NEW", 52⟩] =
      (some ⟨true, false, some 9, none, none, "Max reprices reached"⟩,
       [Event.get_order "BTCEUR" 9, Event.get_best_ask "BTCEUR",
        Event.cancel_order "BTCEUR" 9]) :=
  monitor_max_reprices_abandon ⟨"BTCEUR", 100, 1/2, "GTC", 1, 1, 3⟩
    ⟨1, 1, 10, 1, 10⟩ 100 (fun _ => 7) ⟨9, 50, 3, 0⟩ ⟨"NEW", 52⟩ []
    (Or.inl rfl) (by norm_num) (by norm_num) (by norm_num)

/-- C4: whenever a poll observes an order status that is none of FILLED,
NEW or PARTIALLY_FILLED, monitoring returns immediately with a failing
`OrderResult` (success = false, filled = false) whose message identifies
the status, calling neither `cancel_order` nor `place_limit_order` and
ignoring the remaining observations. -/
theorem monitor_unexpected_status (cfg : OrderConfig) (filters : Filters)
    (quantity : ℚ) (new_ids : ℕ → Int) (st : MonState) (ob : Obs)
    (rest : List Obs)
    (h1 : ob.status ≠ "FILLED") (h2 : ob.status ≠ "NEW")
    (h3 : ob.status ≠ "PARTIALLY_FILLED") :
    monitor_order_go cfg filters quantity new_ids st (ob :: rest) =
      (some ⟨false, false, some st.current_order_id, none, none,
         "Unexpected status: " ++ ob.status⟩,
       [Event.get_order cfg.symbol st.current_order_id,
        Event.get_best_ask cfg.symbol]) := by
  simp [monitor_order_go, monitor_step, h1, h2, h3]

/-- Witness for C4: a REJECTED status returns an immediate failure naming
the status, with only the two read calls, even with observations left. -/
theorem monitor_unexpected_status_witness :
    monitor_order_go ⟨"BTCEUR", 100, 1/2, "GTC", 1, 1, 3⟩ ⟨1, 1, 10, 1, 10⟩
        100 (fun _ => 7) ⟨4, 50, 0, 0⟩ [⟨"REJECTED", 52⟩, ⟨"NEW", 49⟩] =
      (some ⟨false, false, some 4, none, none,
         "Unexpected status: " ++ "REJECTED"⟩,
       [Event.get_order "BTCEUR" 4, Event.get_best_ask "BTCEUR"]) :=
  monitor_unexpected_status ⟨"BTCEUR", 100, 1/2, "GTC", 1, 1, 3⟩
    ⟨1, 1, 10, 1, 10⟩ 100 (fun _ => 7) ⟨4, 50, 0, 0⟩ ⟨"REJECTED", 52⟩
    [⟨"NEW", 49⟩] (by decide) (by decide) (by decide)

/-- C8: with dry_run = true and validation passing, `execute` returns a
successful, unfilled `OrderResult` carrying the computed quantity and
price, and the run makes no `place_limit_order`, `cancel_order` or
`get_order` call (only the two reads). -/
theorem execute_dry_run_no_calls (cfg : OrderConfig) (env : ExchangeEnv)
    (h : validate_order
      (calculate_quantity cfg.spend_quote
        (calculate_limit_price env.best_ask cfg.price_multiplier env.filters)
        env.filters)
      (calculate_limit_price env.best_ask cfg.price_multiplier env.filters)
      env.filters = none) :
    execute cfg true env
      = (some ⟨true, false, none,
          some (calculate_quantity cfg.spend_quote
            (calculate_limit_price env.best_ask cfg.price_multiplier
              env.filters) env.filters),
          some (calculate_limit_price env.best_ask cfg.price_multiplier
            env.filters),
          "Dry run - no order placed"⟩,
         [Event.get_exchange_info cfg.symbol,
          Event.get_best_ask cfg.symbol]) ∧
    ∀ ev ∈ (execute cfg true env).2, isOrderCall ev = false := by
  have heq : execute cfg true env
      = (some ⟨true, false, none,
          some (calculate_quantity cfg.spend_quote
            (calculate_limit_price env.best_ask cfg.price_multiplier
              env.filters) env.filters),
          some (calculate_limit_price env.best_ask cfg.price_multiplier
            env.filters),
          "Dry run - no order placed"⟩,
         [Event.get_exchange_info cfg.symbol,
          Event.get_best_ask cfg.symbol]) := by
    simp only [execute, h, if_true]
  refine ⟨heq, ?_⟩
  intro ev hev
  rw [heq] at hev
  simp only [List.mem_cons, List.mem_singleton, List.not_mem_nil,
    or_false] at hev
  rcases hev with rfl | rfl <;> rfl

/-- Witness for C8: a passing dry run (ask 100, multiplier 1/2, spend 100,
permissive filters) returns the computed quantity and price with only the
two read events. -/
theorem execute_dry_run_no_calls_witness :
    execute ⟨"BTCEUR", 100, 1/2, "GTC", 1, 1, 1⟩ true
        ⟨⟨1, 1, 10, 1, 10⟩, 100, ⟨1, "NEW"⟩, [], fun _ => 2⟩
      = (some ⟨true, false, none,
          some (calculate_quantity 100
            (calculate_limit_price 100 (1/2) ⟨1, 1, 10, 1, 10⟩)
            ⟨1, 1, 10, 1, 10⟩),
          some (calculate_limit_price 100 (1/2) ⟨1, 1, 10, 1, 10⟩),
          "Dry run - no order placed"⟩,
         [Event.get_exchange_info "BTCEUR", Event.get_best_ask "BTCEUR"]) ∧
    ∀ ev ∈ (execute ⟨"BTCEUR", 100, 1/2, "GTC", 1, 1, 1⟩ true
        ⟨⟨1, 1, 10, 1, 10⟩, 100, ⟨1, "NEW"⟩, [], fun _ => 2⟩).2,
      isOrderCall ev = false :=
  execute_dry_run_no_calls ⟨"BTCEUR", 100, 1/2, "GTC", 1, 1, 1⟩
    ⟨⟨1, 1, 10, 1, 10⟩, 100, ⟨1, "NEW"⟩, [], fun _ => 2⟩
    (by norm_num +decide [validate_order, calculate_limit_price,
      calculate_quantity, round_to_tick, round_down])

theorem placedOrders_append (a b : List Event) :
    placedOrders (a ++ b) = placedOrders a ++ placedOrders b :=
  List.filterMap_append a b placeQP

theorem monitor_step_places (cfg : OrderConfig) (filters : Filters)
    (quantity : ℚ) (new_ids : ℕ → Int) (st : MonState) (ob : Obs) :
    ∀ qp ∈ placedOrders (monitor_step cfg filters quantity new_ids st ob).2,
      qp = (quantity,
        round_to_tick (ob.ask * cfg.price_multiplier) filters.tick_size) := by
  intro qp hqp
  unfold monitor_step at hqp
  split_ifs at hqp <;>
    simp_all [placedOrders, placeQP, reprice_order]

theorem monitor_go_places (cfg : OrderConfig) (filters : Filters)
    (quantity : ℚ) (new_ids : ℕ → Int) (htick : 0 < filters.tick_size) :
    ∀ (obs : List Obs) (st : MonState),
      ∀ qp ∈ placedOrders
        (monitor_order_go cfg filters quantity new_ids st obs).2,
      qp.1 = quantity ∧ ∃ i : ℤ, qp.2 = i * filters.tick_size := by
  intro obs
  induction obs with
  | nil =>
    intro st qp hqp
    simp [monitor_order_go, placedOrders] at hqp
  | cons ob rest ih =>
    intro st qp hqp
    rw [monitor_order_go] at hqp
    rcases hstep : monitor_step cfg filters quantity new_ids st ob
      with ⟨out, evs⟩
    rw [hstep] at hqp
    have hstep_evs : ∀ qp ∈ placedOrders evs,
        qp.1 = quantity ∧ ∃ i : ℤ, qp.2 = i * filters.tick_size := by
      intro qp' hqp'
      have h2 : qp' ∈ placedOrders
          (monitor_step cfg filters quantity new_ids st ob).2 := by
        rw [hstep]; exact hqp'
      have h3 := monitor_step_places cfg filters quantity new_ids st ob
        qp' h2
      subst h3
      exact ⟨rfl, round_down_is_multiple _ htick⟩
    cases out with
    | inl r =>
      exact hstep_evs qp hqp
    | inr st2 =>
      simp only [placedOrders_append, List.mem_append] at hqp
      rcases hqp with hqp | hqp
      · exact hstep_evs qp hqp
      · exact ih st2 qp hqp

/-- C1 (amended): every order the executor delivers to the exchange has a
price that is a multiple of the tick size, a quantity that is a multiple
of the step size, and a quantity within [min_qty, max_qty]; the initially
placed order additionally satisfies quantity * price ≥ min_notional. (The
original claim also asserted the notional bound for replacement orders,
which the code does not re-validate — see the counterexample.) -/
theorem execute_placed_orders_filters (cfg : OrderConfig) (dry_run : Bool)
    (env : ExchangeEnv) (htick : 0 < env.filters.tick_size)
    (hstep : 0 < env.filters.step_size) :
    (∀ qp ∈ placedOrders (execute cfg dry_run env).2,
      (∃ i : ℤ, qp.2 = i * env.filters.tick_size) ∧
      (∃ j : ℤ, qp.1 = j * env.filters.step_size) ∧
      env.filters.min_qty ≤ qp.1 ∧ qp.1 ≤ env.filters.max_qty) ∧
    (∀ qp ∈ (placedOrders (execute cfg dry_run env).2).head?,
      env.filters.min_notional ≤ qp.1 * qp.2) := by
  rcases hval : validate_order
    (calculate_quantity cfg.spend_quote
      (calculate_limit_price env.best_ask cfg.price_multiplier env.filters)
      env.filters)
    (calculate_limit_price env.best_ask cfg.price_multiplier env.filters)
    env.filters with _ | e
  case some =>
    have hlog : execute cfg dry_run env
        = (some ⟨false, false, none, none, none, e⟩,
           [Event.get_exchange_info cfg.symbol,
            Event.get_best_ask cfg.symbol]) := by
      simp only [execute, hval]
    rw [hlog]
    simp [placedOrders, placeQP]
  case none =>
    rcases validate_order_none hval with ⟨hmin, hmax, hnot⟩
    have hq_mult : ∃ j : ℤ,
        calculate_quantity cfg.spend_quote
          (calculate_limit_price env.best_ask cfg.price_multiplier
            env.filters) env.filters = j * env.filters.step_size :=
      round_down_is_multiple _ hstep
    have hp_mult : ∃ i : ℤ,
        calculate_limit_price env.best_ask cfg.price_multiplier env.filters
          = i * env.filters.tick_size :=
      round_down_is_multiple _ htick
    cases dry_run with
    | true =>
      have hplaces : placedOrders (execute cfg true env).2 = [] := by
        simp [execute, hval, placedOrders, placeQP]
      rw [hplaces]
      simp
    | false =>
      by_cases hfilled : env.place_resp.status = "FILLED"
      · have hplaces : placedOrders (execute cfg false env).2
            = [(calculate_quantity cfg.spend_quote
                  (calculate_limit_price env.best_ask cfg.price_multiplier
                    env.filters) env.filters,
                calculate_limit_price env.best_ask cfg.price_multiplier
                  env.filters)] := by
          simp [execute, hval, place_and_monitor, hfilled, placedOrders,
            placeQP]
        rw [hplaces]
        refine ⟨?_, ?_⟩
        · intro qp hqp
          simp only [List.mem_singleton] at hqp
          subst hqp
          exact ⟨hp_mult, hq_mult, hmin, hmax⟩
        · intro qp hqp
          simp only [List.head?_cons, Option.mem_def, Option.some.injEq]
            at hqp
          subst hqp
          exact hnot
      · have hplaces : placedOrders (execute cfg false env).2
            = (calculate_quantity cfg.spend_quote
                 (calculate_limit_price env.best_ask cfg.price_multiplier
                   env.filters) env.filters,
               calculate_limit_price env.best_ask cfg.price_multiplier
                 env.filters)
              :: placedOrders (monitor_order_go cfg env.filters
                   (calculate_quantity cfg.spend_quote
                     (calculate_limit_price env.best_ask cfg.price_multiplier
                       env.filters) env.filters)
                   env.new_ids
                   ⟨env.place_resp.orderId,
                    calculate_limit_price env.best_ask cfg.price_multiplier
                      env.filters, 0, 0⟩ env.obs).2 := by
          simp [execute, hval, place_and_monitor, hfilled, monitor_order,
            placedOrders, placeQP]
        have hmon := monitor_go_places cfg env.filters
          (calculate_quantity cfg.spend_quote
            (calculate_limit_price env.best_ask cfg.price_multiplier
              env.filters) env.filters)
          env.new_ids htick env.obs
          ⟨env.place_resp.orderId,
           calculate_limit_price env.best_ask cfg.price_multiplier
             env.filters, 0, 0⟩
        rw [hplaces]
        refine ⟨?_, ?_⟩
        · intro qp hqp
          rcases List.mem_cons.mp hqp with hqp | hqp
          · subst hqp
            exact ⟨hp_mult, hq_mult, hmin, hmax⟩
          · rcases hmon qp hqp with ⟨h1, h2⟩
            rw [h1]
            exact ⟨h2, hq_mult, hmin, hmax⟩
        · intro qp hqp
          simp only [List.head?_cons, Option.mem_def, Option.some.injEq]
            at hqp
          subst hqp
          exact hnot

/-- Counterexample to C1 as stated: with filters tick 1, step 1,
min_notional 100, min_qty 1, max_qty 10, multiplier 1/2, spend 100, ask
100, the initial order is 2 @ 50 (notional 100, valid); after one poll
with the ask at 52 the replacement order is 2 @ 26, whose notional 52 is
below min_notional — so not every delivered order satisfies all four
filter conditions. -/
theorem execute_reprice_min_notional_cex :
    ¬ (∀ qp ∈ placedOrders (execute ⟨"BTCEUR", 100, 1/2, "GTC", 1, 1, 1⟩
        false
        ⟨⟨1, 1, 100, 1, 10⟩, 100, ⟨1, "NEW"⟩, [⟨"NEW", 52⟩],
          fun _ => 2⟩).2,
        (∃ i : ℤ, qp.2 = i * (1 : ℚ)) ∧
        (∃ j : ℤ, qp.1 = j * (1 : ℚ)) ∧
        (100 : ℚ) ≤ qp.1 * qp.2 ∧
        (1 : ℚ) ≤ qp.1 ∧ qp.1 ≤ 10) := by
  have hplaces : placedOrders (execute ⟨"BTCEUR", 100, 1/2, "GTC", 1, 1, 1⟩
      false
      ⟨⟨1, 1, 100, 1, 10⟩, 100, ⟨1, "NEW"⟩, [⟨"NEW", 52⟩],
        fun _ => 2⟩).2 = [(2, 50), (2, 26)] := by
    norm_num +decide [execute, calculate_limit_price, calculate_quantity,
      validate_order, place_and_monitor, monitor_order, monitor_order_go,
      monitor_step, reprice_order, round_to_tick, round_down, placedOrders,
      placeQP]
  intro h
  have h2 := h (2, 26) (by rw [hplaces]; simp)
  have h3 := h2.2.2.1
  norm_num at h3

/-- Witness for C1 (amended) at the counterexample run: both placed orders
are tick/step aligned with quantity in bounds, and the first one meets the
notional minimum. -/
theorem execute_placed_orders_filters_witness :
    (∀ qp ∈ placedOrders (execute ⟨"BTCEUR", 100, 1/2, "GTC", 1, 1, 1⟩
        false
        ⟨⟨1, 1, 100, 1, 10⟩, 100, ⟨1, "NEW"⟩, [⟨"NEW", 52⟩],
          fun _ => 2⟩).2,
      (∃ i : ℤ, qp.2 = i * (⟨1, 1, 100, 1, 10⟩ : Filters).tick_size) ∧
      (∃ j : ℤ, qp.1 = j * (⟨1, 1, 100, 1, 10⟩ : Filters).step_size) ∧
      (⟨1, 1, 100, 1, 10⟩ : Filters).min_qty ≤ qp.1 ∧
      qp.1 ≤ (⟨1, 1, 100, 1, 10⟩ : Filters).max_qty) ∧
    (∀ qp ∈ (placedOrders (execute ⟨"BTCEUR", 100, 1/2, "GTC", 1, 1, 1⟩
        false
        ⟨⟨1, 1, 100, 1, 10⟩, 100, ⟨1, "NEW"⟩, [⟨"NEW", 52⟩],
          fun _ => 2⟩).2).head?,
      (⟨1, 1, 100, 1, 10⟩ : Filters).min_notional ≤ qp.1 * qp.2) :=
  execute_placed_orders_filters ⟨"BTCEUR", 100, 1/2, "GTC", 1, 1, 1⟩ false
    ⟨⟨1, 1, 100, 1, 10⟩, 100, ⟨1, "NEW"⟩, [⟨"NEW", 52⟩], fun _ => 2⟩
    (by norm_num) (by norm_num)

namespace Cli

/-- `normalize_symbol` (src/cli.py:9-11): uppercase, then remove the
separator characters dash, slash and underscore (the embedding of the
`re.sub` deletion over `symbol.upper()`, working on the character
list). -/
def normalize_symbol (s : String) : String :=
  ⟨(s.data.map Char.toUpper).filter
    fun c => !(c == '-' || c == '/' || c == '_')⟩

/-- `validate_args` (src/cli.py:99-116), after the string-to-Decimal
conversion of an environment-supplied spend value (an empty string becomes
`none`): the returned message is the `ValueError` the Python code raises,
`none` means validation passes. -/
def validate_args (spend_eur : Option ℚ) (price_multiplier : ℚ) :
    Option String :=
  match spend_eur with
  | none => some "--spend-eur is required"
  | some s =>
    if s ≤ 0 then
      some ("--spend-eur must be positive, got " ++ toString s)
    else if ¬ (0 < price_multiplier ∧ price_multiplier < 1) then
      some ("--price-multiplier must be between 0 and 1, got "
        ++ toString price_multiplier)
    else none

end Cli

namespace Utils

/-- `normalize_symbol` (src/utils.py:8-20): same computation as the cli
version. -/
def normalize_symbol (s : String) : String :=
  ⟨(s.data.map Char.toUpper).filter
    fun c => !(c == '-' || c == '/' || c == '_')⟩

/-- `validate_args` (src/utils.py:142-161): same checks as the cli
version, with slightly different messages. -/
def validate_args (spend_eur : Option ℚ) (price_multiplier : ℚ) :
    Option String :=
  match spend_eur with
  | none => some "The --spend-eur argument must be provided"
  | some s =>
    if s ≤ 0 then
      some ("--spend-eur must be positive, got " ++ toString s)
    else if ¬ (0 < price_multiplier ∧ price_multiplier < 1) then
      some ("--price-multiplier must be between 0 and 1 (exclusive), got "
        ++ toString price_multiplier)
    else none

end Utils

/-- `main` (src/main.py:23-50) up to the hand-off to `run`: validate the
arguments (via `src.utils.validate_args`, which `main.py` imports), then
check the API credentials, and only then run the bot. `run` performs all
network work (client construction included), so it is abstracted as the
pair (exit code, event log) it would produce; a missing or empty
credential is a `none` or `""` value. Returns (exit code, event log). -/
def main (spend_eur : Option ℚ) (price_multiplier : ℚ)
    (api_key api_secret : Option String) (run : Int × List Event) :
    Int × List Event :=
  match Utils.validate_args spend_eur price_multiplier with
  | some _ => (1, [])
  | none =>
    if api_key = none ∨ api_key = some "" ∨ api_secret = none
        ∨ api_secret = some "" then
      (1, [])
    else run

/-- C9: configuration validation fails (raises `ValueError`, the spec's
`ConfigurationError`) if and only if the spend amount is missing or not
strictly positive, or the price multiplier is not strictly between 0 and
1; and when it fails, `main` exits with code 1 having made no exchange
call (empty event log — in particular no client is used, whatever `run`
would have done). -/
theorem validate_args_rejects_iff (spend : Option ℚ) (pm : ℚ)
    (key sec : Option String) (run : Int × List Event) :
    ((Cli.validate_args spend pm).isSome ↔
      spend = none ∨ (∃ s, spend = some s ∧ s ≤ 0) ∨
        ¬ (0 < pm ∧ pm < 1)) ∧
    (∀ e, Utils.validate_args spend pm = some e →
      main spend pm key sec run = (1, [])) := by
  constructor
  · cases spend with
    | none => simp [Cli.validate_args]
    | some s =>
      by_cases hs : s ≤ 0
      · simp [Cli.validate_args, hs]
      · by_cases hpm : 0 < pm ∧ pm < 1
        · simp [Cli.validate_args, hs, hpm]
        · simp [Cli.validate_args, hs, hpm]
  · intro e he
    simp only [main, he]

/-- Witness for C9: a missing spend amount is rejected and `main` exits 1
with an empty event log. -/
theorem validate_args_rejects_iff_witness :
    ((Cli.validate_args none (1/2)).isSome ↔
      (none : Option ℚ) = none ∨
        (∃ s, (none : Option ℚ) = some s ∧ s ≤ 0) ∨
        ¬ ((0 : ℚ) < 1/2 ∧ (1/2 : ℚ) < 1)) ∧
    main none (1/2) (some "k") (some "s")
        (0, [Event.get_best_ask "BTCEUR"]) = (1, []) :=
  ⟨(validate_args_rejects_iff none (1/2) (some "k") (some "s")
      (0, [Event.get_best_ask "BTCEUR"])).1,
   (validate_args_rejects_iff none (1/2) (some "k") (some "s")
      (0, [Event.get_best_ask "BTCEUR"])).2
     "The --spend-eur argument must be provided" rfl⟩

theorem toNat_ofNat_valid (n : ℕ) (h : n.isValidChar) :
    (Char.ofNat n).toNat = n := by
  rw [Char.ofNat, dif_pos h]
  rfl

theorem toUpper_idem (c : Char) :
    Char.toUpper (Char.toUpper c) = Char.toUpper c := by
  simp only [Char.toUpper]
  by_cases h : c.toNat ≥ 97 ∧ c.toNat ≤ 122
  · rw [if_pos h]
    have hval : (c.toNat - 32).isValidChar := by
      left
      omega
    rw [if_neg (by rw [toNat_ofNat_valid _ hval]; omega)]
  · rw [if_neg h, if_neg h]

theorem map_toUpper_eq_self {l : List Char}
    (h : ∀ a ∈ l, Char.toUpper a = a) : l.map Char.toUpper = l := by
  induction l with
  | nil => rfl
  | cons a t ih =>
    simp only [List.map_cons, h a (by simp), List.cons.injEq, true_and]
    exact ih fun b hb => h b (by simp [hb])

/-- C10: the duplicated helpers of src/cli.py and src/utils.py are
behaviorally equivalent: the two `normalize_symbol` functions agree on
every input and each is idempotent, and the two `validate_args` functions
fail under exactly the same conditions. -/
theorem cli_utils_helpers_equiv :
    (∀ s : String, Cli.normalize_symbol s = Utils.normalize_symbol s) ∧
    (∀ s : String, Cli.normalize_symbol (Cli.normalize_symbol s)
      = Cli.normalize_symbol s) ∧
    (∀ s : String, Utils.normalize_symbol (Utils.normalize_symbol s)
      = Utils.normalize_symbol s) ∧
    (∀ (spend : Option ℚ) (pm : ℚ),
      (Cli.validate_args spend pm).isSome
        = (Utils.validate_args spend pm).isSome) := by
  have hidem : ∀ s : String, Cli.normalize_symbol (Cli.normalize_symbol s)
      = Cli.normalize_symbol s := by
    intro s
    unfold Cli.normalize_symbol
    have hself : ((s.data.map Char.toUpper).filter
        fun c => !(c == '-' || c == '/' || c == '_')).map Char.toUpper
        = (s.data.map Char.toUpper).filter
            fun c => !(c == '-' || c == '/' || c == '_') := by
      apply map_toUpper_eq_self
      intro a ha
      have ha2 : a ∈ s.data.map Char.toUpper := List.mem_of_mem_filter ha
      rcases List.mem_map.mp ha2 with ⟨x, _, rfl⟩
      exact toUpper_idem x
    rw [hself, List.filter_filter]
    simp
  refine ⟨fun s => rfl, hidem, ?_, ?_⟩
  · intro s
    have h1 : Utils.normalize_symbol s = Cli.normalize_symbol s := rfl
    have h2 : ∀ t : String, Utils.normalize_symbol t
        = Cli.normalize_symbol t := fun t => rfl
    rw [h2, h1, hidem]
  · intro spend pm
    cases spend with
    | none => rfl
    | some s =>
      by_cases hs : s ≤ 0
      · simp [Cli.validate_args, Utils.validate_args, hs]
      · by_cases hpm : 0 < pm ∧ pm < 1
        · simp [Cli.validate_args, Utils.validate_args, hs, hpm]
        · simp [Cli.validate_args, Utils.validate_args, hs, hpm]

end CryptoDCA
